import Mathlib

/-!
Verification development for the `storage-s3` adapter (`s3.go`, `index.go`).

The Go source is shallowly embedded: every function of the adapter core is
translated into an executable Lean definition, external effects (local
filesystem, the S3 SDK) are represented by explicit environment records that
enumerate the possible outcomes of each external call, and every operation
returns — besides its result — the connection state it leaves behind and the
list of remote calls it issued, so that frame and "no remote call" properties
can be stated directly.
-/

namespace StorageS3

/-- Values of the loosely-typed settings map (`instance.Setting` holds Go
`interface\x7b\x7d` values; only string and bool assertions are used by
`Connect`, everything else — including an absent key — behaves the same). -/
inductive SettingValue where
  | str (s : String)
  | boolean (b : Bool)
  | other
deriving DecidableEq

/-- The settings map `instance.Setting`: total over keys, absent keys are
`SettingValue.other`. -/
abbrev Settings := String → SettingValue

/-- Embeds the `s3Setting` struct of `s3.go`. -/
structure S3Setting where
  Region : String := ""
  Bucket : String := ""
  AccessKey : String := ""
  SecretKey : String := ""
  SessionToken : String := ""
  Endpoint : String := ""
  UsePathStyle : Bool := false
deriving DecidableEq

/-- The Go idiom `v, ok := m[k].(string); ok && v != ""`: the value of key
`k` when it is a non-empty string. -/
def strSetting (m : Settings) (k : String) : Option String :=
  match m k with
  | SettingValue.str v => if v = "" then none else some v
  | _ => none

/-- The Go idiom `v, ok := m[k].(bool)`. -/
def boolSetting (m : Settings) (k : String) : Option Bool :=
  match m k with
  | SettingValue.boolean v => some v
  | _ => none

/-- One conditional override step of `Connect`: apply the update when the
optional value is present, keep the settings otherwise. -/
def applyOpt {α : Type} (o : Option α) (f : α → S3Setting → S3Setting) (s : S3Setting) : S3Setting :=
  match o with
  | some v => f v s
  | none => s

/-- The trailing `if setting.Bucket == "" \x7b setting.Bucket = "default" \x7d`
of `Connect`. -/
def fixBucket (s : S3Setting) : S3Setting :=
  if s.Bucket = "" then { s with Bucket := "default" } else s

/-- Embeds `s3Driver.Connect`'s settings normalization (s3.go lines 48-88):
start from the defaults and apply the conditional overrides in source order. -/
def connectSetting (m : Settings) : S3Setting :=
  let s : S3Setting := { Region := "us-east-1", Bucket := "default" }
  let s := applyOpt (strSetting m "region") (fun v s => { s with Region := v }) s
  let s := applyOpt (strSetting m "bucket") (fun v s => { s with Bucket := v }) s
  let s := applyOpt (strSetting m "access") (fun v s => { s with AccessKey := v }) s
  let s := applyOpt (strSetting m "accesskey") (fun v s => { s with AccessKey := v }) s
  let s := applyOpt (strSetting m "access_key") (fun v s => { s with AccessKey := v }) s
  let s := applyOpt (strSetting m "secret") (fun v s => { s with SecretKey := v }) s
  let s := applyOpt (strSetting m "secretkey") (fun v s => { s with SecretKey := v }) s
  let s := applyOpt (strSetting m "secret_key") (fun v s => { s with SecretKey := v }) s
  let s := applyOpt (strSetting m "session_token") (fun v s => { s with SessionToken := v }) s
  let s := applyOpt (strSetting m "endpoint") (fun v s => { s with Endpoint := v }) s
  let s := applyOpt (boolSetting m "path_style") (fun v s => { s with UsePathStyle := v }) s
  let s := applyOpt (boolSetting m "force_path_style") (fun v s => { s with UsePathStyle := v }) s
  fixBucket s

/-- Embeds the `s3Connection` struct: the normalized settings and the client
handle (`some ()` when a live `*s3.Client` is installed, `none` when nil).
The `instance` back-pointer is kept implicit: the only use the adapter makes
of it is the `NewFile` factory, modelled below. -/
structure Conn where
  setting : S3Setting
  client : Option Unit
deriving DecidableEq

/-- Embeds `s3Driver.Connect` (s3.go lines 48-90): normalize the settings and
return a connection with no client installed. Totality of this function is the
embedding of "Connect never fails". -/
def Connect (m : Settings) : Conn :=
  { setting := connectSetting m, client := none }

/-- Later-key-overwrites resolution of a list of optional settings values,
used to specify the access/secret synonym chains of `Connect`. -/
def overrideChain (base : String) (os : List (Option String)) : String :=
  os.foldl (fun acc o => match o with | some v => v | none => acc) base

/-! ### Path handling (Go standard library `path`, as called by `s3.go`) -/

/-- Stack-based processing of the slash-separated components of a path,
following Go `path.Clean`'s lexical algorithm: empty and `.` components are
dropped, `..` pops a previous component when one is available, is dropped at
the root, and is kept when the path is relative and nothing can be popped. -/
def cleanParts (rooted : Bool) : List String → List String → List String
  | stack, [] => stack.reverse
  | stack, c :: rest =>
    if c = "" ∨ c = "." then cleanParts rooted stack rest
    else if c = ".." then
      match stack with
      | top :: tl =>
        if top = ".." then cleanParts rooted (".." :: top :: tl) rest
        else cleanParts rooted tl rest
      | [] =>
        if rooted then cleanParts rooted [] rest
        else cleanParts rooted [".."] rest
    else cleanParts rooted (c :: stack) rest

/-- Split a character list on a separator, like `strings.Split`: the empty
list yields one empty component, a trailing separator a trailing empty
component. -/
def splitChar (sep : Char) : List Char → List (List Char)
  | [] => [[]]
  | c :: rest =>
    let r := splitChar sep rest
    if c = sep then [] :: r
    else
      match r with
      | h :: t => (c :: h) :: t
      | [] => [[c]]

/-- Whether a path begins with a slash. -/
def pathRooted : List Char → Bool
  | c :: _ => c = '/'
  | [] => false

/-- Join path components with single slashes. -/
def joinParts : List String → String
  | [] => ""
  | [p] => p
  | p :: rest => p ++ "/" ++ joinParts rest

/-- Models Go `path.Clean`: lexically normalize a slash-separated path. -/
def pathClean (p : String) : String :=
  if p = "" then "."
  else
    let rooted := pathRooted p.data
    let comps := (splitChar '/' p.data).map String.mk
    let parts := cleanParts rooted [] comps
    let out := (if rooted then "/" else "") ++ joinParts parts
    if out = "" then "." else out

/-- Models Go `path.Join` on two elements: empty elements contribute nothing
but a kept separator once the buffer is non-empty, and the concatenation is
cleaned; two empty elements give the empty string. -/
def pathJoin2 (a b : String) : String :=
  if a = "" ∧ b = "" then ""
  else if a = "" then pathClean b
  else if b = "" then pathClean (a ++ "/")
  else pathClean (a ++ "/" ++ b)

/-- Helper for `pathExt`: scan the reversed character list; on the first `.`
return the dot plus the accumulated suffix, stop empty at a `/` or at the
start of the string. -/
def extFromRev (acc : List Char) : List Char → String
  | [] => ""
  | c :: rest =>
    if c = '/' then ""
    else if c = '.' then String.mk ('.' :: acc)
    else extFromRev (c :: acc) rest

/-- Models Go `path.Ext`: the suffix of the last component starting at its
final dot, including the dot; empty when there is none. -/
def pathExt (p : String) : String :=
  extFromRev [] p.data.reverse

/-! ### Query escaping and canonical tagging (s3.go lines 190-202) -/

/-- UTF-8 encoding of a character as its list of byte values. -/
def utf8Bytes (c : Char) : List Nat :=
  let n := c.toNat
  if n < 0x80 then [n]
  else if n < 0x800 then
    [0xC0 ||| (n >>> 6), 0x80 ||| (n &&& 0x3F)]
  else if n < 0x10000 then
    [0xE0 ||| (n >>> 12), 0x80 ||| ((n >>> 6) &&& 0x3F), 0x80 ||| (n &&& 0x3F)]
  else
    [0xF0 ||| (n >>> 18), 0x80 ||| ((n >>> 12) &&& 0x3F),
      0x80 ||| ((n >>> 6) &&& 0x3F), 0x80 ||| (n &&& 0x3F)]

/-- The bytes of a string, as Go ranges over them. -/
def strBytes (s : String) : List Nat :=
  s.data.foldr (fun c acc => utf8Bytes c ++ acc) []

/-- Uppercase hexadecimal digits, as used by Go `net/url` escaping. -/
def upperHex : List Char :=
  ['0', '1', '2', '3', '4', '5', '6', '7', '8', '9', 'A', 'B', 'C', 'D', 'E', 'F']

/-- Hex digit character for a value below 16. -/
def hexChar (n : Nat) : Char :=
  upperHex.getD n '0'

/-- Go `net/url.shouldEscape` for query components, complemented: ASCII
letters, digits and `-_.~` stay as they are. -/
def isUnreservedQueryByte (b : Nat) : Bool :=
  (decide (0x41 ≤ b) && decide (b ≤ 0x5A)) ||
  (decide (0x61 ≤ b) && decide (b ≤ 0x7A)) ||
  (decide (0x30 ≤ b) && decide (b ≤ 0x39)) ||
  decide (b = 0x2D) || decide (b = 0x5F) || decide (b = 0x2E) || decide (b = 0x7E)

/-- Escape one byte the way Go `url.QueryEscape` does: space becomes `+`,
unreserved bytes stay, everything else becomes `%XX` with uppercase hex. -/
def escapeByte (b : Nat) : String :=
  if b = 0x20 then "+"
  else if isUnreservedQueryByte b then String.mk [Char.ofNat b]
  else String.mk ['%', hexChar (b / 16), hexChar (b % 16)]

/-- Models Go `net/url.QueryEscape`. -/
def queryEscape (s : String) : String :=
  String.join ((strBytes s).map escapeByte)

/-- Lexicographic comparison of character lists. On valid UTF-8 data this
coincides with Go's bytewise string order used by `sort.Strings`. -/
def charListLe : List Char → List Char → Bool
  | [], _ => true
  | _ :: _, [] => false
  | a :: as, b :: bs => if a = b then charListLe as bs else decide (a < b)

/-- Go string order (`s1 <= s2` as `sort.Strings` sees it). -/
def strLe (a b : String) : Bool :=
  charListLe a.data b.data

/-- Go map indexing `tags[k]` over the association-list view of the map
(the list order is the map's iteration order; keys are distinct in a map). -/
def mapGet (tags : List (String × String)) (k : String) : String :=
  match tags with
  | [] => ""
  | (k', v) :: rest => if k' = k then v else mapGet rest k

/-- Embeds the tagging computation of `Upload` (s3.go lines 190-202): when
tags are present, collect the keys, sort them, percent-encode each `key=value`
pair and join with `&`; `none` when no tags are given (the `Tagging` input
field is left unset). Values are the `fmt.Sprintf("%v", ·)` renderings of the
map's values. -/
def taggingOf (tags : List (String × String)) : Option String :=
  if 0 < tags.length then
    let keys := tags.map Prod.fst
    let sortedKeys := List.insertionSort (fun a b => strLe a b = true) keys
    some (String.intercalate "&"
      (sortedKeys.map (fun k => queryEscape k ++ "=" ++ queryEscape (mapGet tags k))))
  else none

/-! ### Files and the object key resolver -/

/-- The narrow read surface of `storage.File` used by the adapter: the
accessors `Prefix()`, `Key()`, `Type()` and the size it was created with.
The field `pfx` embeds the prefix accessor, `ftype` the type accessor. -/
structure GoFile where
  pfx : String
  key : String
  ftype : String
  size : Int
deriving DecidableEq

/-- The `instance.NewFile(prefix, key, type, size)` factory of the external
`storage` package: builds a file record carrying exactly those fields. -/
def NewFile (p k t : String) (sz : Int) : GoFile :=
  { pfx := p, key := k, ftype := t, size := sz }

/-- Embeds `objectPath` (s3.go lines 306-312). -/
def objectPath (f : GoFile) : String :=
  let name := f.key
  let name := if f.ftype ≠ "" then f.key ++ "." ++ f.ftype else name
  pathJoin2 f.pfx name

/-! ### Errors, remote calls, option structs and environments -/

/-- The distinct error exits of the adapter. `statFail true` is a stat error
whose cause is a missing path, `statFail false` any other stat failure;
`localFail` covers the remaining local filesystem failures (open, temp-file
creation, copy, seek, mkdir, create); `remote` is any failure surfaced by an
S3 SDK call; `connectionFail` is a config-load failure in `Open`. -/
inductive Err where
  | notReady
  | statFail (notFound : Bool)
  | dirNotSupported
  | missingKey
  | invalidTarget
  | localFail
  | remote
  | connectionFail
deriving DecidableEq

/-- The spec's `ValidationError` class (§4.4, §7): invalid caller input —
missing upload key, directory as upload source, empty download target, and
(per §4.4 Upload) a local path that does not exist. -/
def Err.isValidationError : Err → Bool
  | Err.statFail notFound => notFound
  | Err.dirNotSupported => true
  | Err.missingKey => true
  | Err.invalidTarget => true
  | _ => false

/-- The `PutObjectInput` assembled by `Upload` (body elided: its bytes are the
local file's, streamed by the SDK). -/
structure PutObjectInput where
  bucket : String
  key : String
  contentType : Option String
  expires : Option Int
  metadata : List (String × String)
  tagging : Option String
deriving DecidableEq

/-- The `GetObjectInput` assembled by `Fetch`. -/
structure GetObjectInput where
  bucket : String
  key : String
  range : Option String
deriving DecidableEq

/-- One remote S3 call, with the request data the adapter put into it. -/
inductive RemoteCall where
  | headBucket (bucket : String)
  | createBucket (bucket : String)
  | putObject (input : PutObjectInput)
  | getObject (input : GetObjectInput)
  | deleteObject (bucket key : String)
  | presignGetObject (bucket key : String) (expiresNanos : Int)
  | managerDownload (bucket key : String)
deriving DecidableEq

/-- Decidable equality of `Except` results, for evaluating witnesses. -/
instance {ε α : Type} [DecidableEq ε] [DecidableEq α] : DecidableEq (Except ε α) := fun a b =>
  match a, b with
  | Except.error e, Except.error e' =>
    if h : e = e' then Decidable.isTrue (by rw [h]) else Decidable.isFalse (by simp [h])
  | Except.error _, Except.ok _ => Decidable.isFalse (by simp)
  | Except.ok _, Except.error _ => Decidable.isFalse (by simp)
  | Except.ok v, Except.ok v' =>
    if h : v = v' then Decidable.isTrue (by rw [h]) else Decidable.isFalse (by simp [h])

/-- Result of an operation in state-passing form: the returned value or
error, the connection state the method leaves behind, and the remote calls it
issued, in order. -/
structure OpOut (α : Type) where
  res : Except Err α
  conn : Conn
  calls : List RemoteCall
deriving DecidableEq

/-- `storage.UploadOption` as read by `Upload`: `pfx` embeds the `Prefix`
field; `expires` embeds the `time.Time` (0 = zero value); `metadata` and
`tags` are association-list views of the maps, in iteration order, with
values already rendered by `fmt.Sprintf("%v", ·)`. -/
structure UploadOption where
  key : String
  pfx : String
  mimetype : String
  expires : Int
  metadata : List (String × String)
  tags : List (String × String)
deriving DecidableEq

/-- `storage.FetchOption`: the byte range; `stop` embeds the Go field `End`. -/
structure FetchOption where
  start : Int
  stop : Int
deriving DecidableEq

/-- `storage.DownloadOption`. -/
structure DownloadOption where
  target : String
deriving DecidableEq

/-- `storage.BrowseOption`: expiry duration in nanoseconds (0 = unset). -/
structure BrowseOption where
  expires : Int
deriving DecidableEq

/-- Outcome of an `os.Stat` call: an error (distinguishing not-found) or the
file info the adapter reads (directory flag and size). -/
inductive StatResult where
  | statErr (notFound : Bool)
  | info (isDir : Bool) (size : Int)
deriving DecidableEq

/-- External outcomes governing one `Upload` call. -/
structure UploadEnv where
  stat : StatResult
  openOk : Bool
  putErr : Bool
deriving DecidableEq

/-- External outcomes governing one `Fetch` call: failure of `GetObject`, of
`os.CreateTemp`, of the `io.Copy`, of the `Seek`; the number of bytes the
copy delivers on success and the temp file's name. -/
structure FetchEnv where
  getErr : Bool
  createTempOk : Bool
  copyOk : Bool
  copied : Int
  seekOk : Bool
  tmpName : String
deriving DecidableEq

/-- External outcomes governing one `Download` call. -/
structure DownloadEnv where
  targetStat : StatResult
  mkdirOk : Bool
  createOk : Bool
  dlErr : Bool
deriving DecidableEq

/-- External outcomes governing one `Remove` call. -/
structure RemoveEnv where
  delErr : Bool
deriving DecidableEq

/-- External outcomes governing one `Browse` call. -/
structure BrowseEnv where
  presignErr : Bool
  url : String
deriving DecidableEq

/-- External outcomes governing one `Open` call: config load, bucket probe,
bucket creation. -/
structure OpenEnv where
  cfgOk : Bool
  headOk : Bool
  createOk : Bool
deriving DecidableEq

/-! ### Lifecycle (s3.go lines 92-142) -/

/-- Embeds `s3Connection.Open` (s3.go lines 92-130). If config loading fails
the method returns before the client is assigned; otherwise the client is
installed, then the bucket is probed with `HeadBucket` and, on probe failure,
created with `CreateBucket`; only a failure of both is an error — and the
client stays installed in that case, exactly as in the source. -/
def Open (c : Conn) (env : OpenEnv) : OpOut Unit :=
  if ¬ env.cfgOk then { res := Except.error Err.connectionFail, conn := c, calls := [] }
  else
    let c' : Conn := { c with client := some () }
    if env.headOk then
      { res := Except.ok (), conn := c', calls := [RemoteCall.headBucket c.setting.Bucket] }
    else if env.createOk then
      { res := Except.ok (), conn := c',
        calls := [RemoteCall.headBucket c.setting.Bucket, RemoteCall.createBucket c.setting.Bucket] }
    else
      { res := Except.error Err.remote, conn := c',
        calls := [RemoteCall.headBucket c.setting.Bucket, RemoteCall.createBucket c.setting.Bucket] }

/-- Embeds `s3Connection.Health` (s3.go lines 132-137): the workload value,
paired with the untouched connection. -/
def Health (c : Conn) : Nat × Conn :=
  (if c.client.isNone then 1 else 0, c)

/-- Embeds `s3Connection.Close` (s3.go lines 139-142). -/
def Close (c : Conn) : OpOut Unit :=
  { res := Except.ok (), conn := { c with client := none }, calls := [] }

/-! ### Data operations (s3.go lines 144-304) -/

/-- The `PutObjectInput` built by `Upload` for a resolved object key. -/
def putInput (c : Conn) (opt : UploadOption) (key : String) : PutObjectInput :=
  { bucket := c.setting.Bucket
  , key := key
  , contentType := if opt.mimetype ≠ "" then some opt.mimetype else none
  , expires := if opt.expires ≠ 0 then some opt.expires else none
  , metadata := opt.metadata
  , tagging := taggingOf opt.tags }

/-- Embeds `s3Connection.Upload` (s3.go lines 144-209). -/
def Upload (c : Conn) (original : String) (opt : UploadOption) (env : UploadEnv) : OpOut GoFile :=
  if c.client.isNone then { res := Except.error Err.notReady, conn := c, calls := [] }
  else
    match env.stat with
    | StatResult.statErr notFound =>
      { res := Except.error (Err.statFail notFound), conn := c, calls := [] }
    | StatResult.info isDir sz =>
      if isDir then { res := Except.error Err.dirNotSupported, conn := c, calls := [] }
      else if opt.key = "" then { res := Except.error Err.missingKey, conn := c, calls := [] }
      else
        let ext0 := pathExt original
        let ext := if 0 < ext0.length then ext0.drop 1 else ext0
        let file := NewFile opt.pfx opt.key ext sz
        let key := objectPath file
        if ¬ env.openOk then { res := Except.error Err.localFail, conn := c, calls := [] }
        else if env.putErr then
          { res := Except.error Err.remote, conn := c, calls := [RemoteCall.putObject (putInput c opt key)] }
        else
          { res := Except.ok file, conn := c, calls := [RemoteCall.putObject (putInput c opt key)] }

/-- The range header computed by `Fetch` (s3.go lines 216-222). -/
def rangeOf (opt : FetchOption) : Option String :=
  if opt.start > 0 ∨ opt.stop > 0 then
    if opt.stop > 0 then
      some ("bytes=" ++ toString opt.start ++ "-" ++ toString opt.stop)
    else
      some ("bytes=" ++ toString opt.start ++ "-")
  else none

/-- The `tempStream` returned by `Fetch`: the backing path and the file
offset of the wrapped handle. -/
structure TempStream where
  path : String
  pos : Int
deriving DecidableEq

/-- `File.Seek` semantics for the temp file as `Fetch` uses it (whence 0 =
absolute, whence 1 = relative). -/
def streamSeek (t : TempStream) (offset : Int) (whence : Int) : TempStream :=
  if whence = 0 then { t with pos := offset } else { t with pos := t.pos + offset }

/-- Result of a `Fetch` in state-passing form, extended with the fate of the
temporary file: whether one was created, and whether it was closed and
removed again on a failure path before returning. -/
structure FetchOut where
  res : Except Err TempStream
  conn : Conn
  calls : List RemoteCall
  tempCreated : Bool
  tempRemoved : Bool
deriving DecidableEq

/-- Embeds `s3Connection.Fetch` (s3.go lines 211-244): readiness check, one
`GetObject` call carrying the range header, temp-file creation, copy of the
body (advancing the file offset by the copied byte count), seek back to
offset 0; on copy or seek failure the temp file is closed and removed before
the error is returned. -/
def Fetch (c : Conn) (file : GoFile) (opt : FetchOption) (env : FetchEnv) : FetchOut :=
  if c.client.isNone then
    { res := Except.error Err.notReady, conn := c, calls := [],
      tempCreated := false, tempRemoved := false }
  else
    let input : GetObjectInput :=
      { bucket := c.setting.Bucket, key := objectPath file, range := rangeOf opt }
    if env.getErr then
      { res := Except.error Err.remote, conn := c, calls := [RemoteCall.getObject input],
        tempCreated := false, tempRemoved := false }
    else if ¬ env.createTempOk then
      { res := Except.error Err.localFail, conn := c, calls := [RemoteCall.getObject input],
        tempCreated := false, tempRemoved := false }
    else if ¬ env.copyOk then
      { res := Except.error Err.localFail, conn := c, calls := [RemoteCall.getObject input],
        tempCreated := true, tempRemoved := true }
    else
      let afterCopy : TempStream := { path := env.tmpName, pos := 0 + env.copied }
      if ¬ env.seekOk then
        { res := Except.error Err.localFail, conn := c, calls := [RemoteCall.getObject input],
          tempCreated := true, tempRemoved := true }
      else
        { res := Except.ok (streamSeek afterCopy 0 0), conn := c,
          calls := [RemoteCall.getObject input], tempCreated := true, tempRemoved := false }

/-- Result of a `Download` in state-passing form, extended with whether the
local target file was created/overwritten. -/
structure DownloadOut where
  res : Except Err String
  conn : Conn
  calls : List RemoteCall
  wroteLocal : Bool
deriving DecidableEq

/-- Embeds `s3Connection.Download` (s3.go lines 246-274). -/
def Download (c : Conn) (file : GoFile) (opt : DownloadOption) (env : DownloadEnv) : DownloadOut :=
  if c.client.isNone then
    { res := Except.error Err.notReady, conn := c, calls := [], wroteLocal := false }
  else if opt.target = "" then
    { res := Except.error Err.invalidTarget, conn := c, calls := [], wroteLocal := false }
  else
    match env.targetStat with
    | StatResult.info false _ =>
      { res := Except.ok opt.target, conn := c, calls := [], wroteLocal := false }
    | _ =>
      if ¬ env.mkdirOk then
        { res := Except.error Err.localFail, conn := c, calls := [], wroteLocal := false }
      else if ¬ env.createOk then
        { res := Except.error Err.localFail, conn := c, calls := [], wroteLocal := false }
      else if env.dlErr then
        { res := Except.error Err.remote, conn := c,
          calls := [RemoteCall.managerDownload c.setting.Bucket (objectPath file)],
          wroteLocal := true }
      else
        { res := Except.ok opt.target, conn := c,
          calls := [RemoteCall.managerDownload c.setting.Bucket (objectPath file)],
          wroteLocal := true }

/-- Embeds `s3Connection.Remove` (s3.go lines 276-285). -/
def Remove (c : Conn) (file : GoFile) (env : RemoveEnv) : OpOut Unit :=
  if c.client.isNone then { res := Except.error Err.notReady, conn := c, calls := [] }
  else if env.delErr then
    { res := Except.error Err.remote, conn := c,
      calls := [RemoteCall.deleteObject c.setting.Bucket (objectPath file)] }
  else
    { res := Except.ok (), conn := c,
      calls := [RemoteCall.deleteObject c.setting.Bucket (objectPath file)] }

/-- One hour in nanoseconds, the value of Go `time.Hour`. -/
def hourNanos : Int := 3600000000000

/-- Embeds `s3Connection.Browse` (s3.go lines 287-304). -/
def Browse (c : Conn) (file : GoFile) (opt : BrowseOption) (env : BrowseEnv) : OpOut String :=
  if c.client.isNone then { res := Except.error Err.notReady, conn := c, calls := [] }
  else
    let exp := if opt.expires ≤ 0 then hourNanos else opt.expires
    if env.presignErr then
      { res := Except.error Err.remote, conn := c,
        calls := [RemoteCall.presignGetObject c.setting.Bucket (objectPath file) exp] }
    else
      { res := Except.ok env.url, conn := c,
        calls := [RemoteCall.presignGetObject c.setting.Bucket (objectPath file) exp] }

/-! ## Theorems -/

/-! ### Settings normalization helper lemmas -/

theorem applyOpt_none {α : Type} (f : α → S3Setting → S3Setting) (s : S3Setting) :
    applyOpt none f s = s := rfl

theorem applyOpt_some {α : Type} (v : α) (f : α → S3Setting → S3Setting) (s : S3Setting) :
    applyOpt (some v) f s = f v s := rfl

theorem strSetting_some {m : Settings} {k v : String} (h : strSetting m k = some v) : v ≠ "" := by
  unfold strSetting at h
  split at h
  · rename_i w hmk
    by_cases hw : w = ""
    · rw [if_pos hw] at h
      exact absurd h (by simp)
    · rw [if_neg hw] at h
      have hwv := Option.some.inj h
      subst hwv
      exact hw
  all_goals exact absurd h (by simp)

theorem fixBucket_Bucket (s : S3Setting) :
    (fixBucket s).Bucket = if s.Bucket = "" then "default" else s.Bucket := by
  unfold fixBucket
  by_cases h : s.Bucket = ""
  · rw [if_pos h, if_pos h]
  · rw [if_neg h, if_neg h]

theorem pass_bucket_Region (o : Option String) (s : S3Setting) :
    (applyOpt o (fun v s => { s with Bucket := v }) s).Region = s.Region := by
  cases o <;> rfl

theorem pass_access_Region (o : Option String) (s : S3Setting) :
    (applyOpt o (fun v s => { s with AccessKey := v }) s).Region = s.Region := by
  cases o <;> rfl

theorem pass_secret_Region (o : Option String) (s : S3Setting) :
    (applyOpt o (fun v s => { s with SecretKey := v }) s).Region = s.Region := by
  cases o <;> rfl

theorem pass_session_Region (o : Option String) (s : S3Setting) :
    (applyOpt o (fun v s => { s with SessionToken := v }) s).Region = s.Region := by
  cases o <;> rfl

theorem pass_endpoint_Region (o : Option String) (s : S3Setting) :
    (applyOpt o (fun v s => { s with Endpoint := v }) s).Region = s.Region := by
  cases o <;> rfl

theorem pass_pstyle_Region (o : Option Bool) (s : S3Setting) :
    (applyOpt o (fun v s => { s with UsePathStyle := v }) s).Region = s.Region := by
  cases o <;> rfl

theorem pass_fix_Region (s : S3Setting) : (fixBucket s).Region = s.Region := by
  unfold fixBucket
  split <;> rfl

theorem pass_region_Bucket (o : Option String) (s : S3Setting) :
    (applyOpt o (fun v s => { s with Region := v }) s).Bucket = s.Bucket := by
  cases o <;> rfl

theorem pass_access_Bucket (o : Option String) (s : S3Setting) :
    (applyOpt o (fun v s => { s with AccessKey := v }) s).Bucket = s.Bucket := by
  cases o <;> rfl

theorem pass_secret_Bucket (o : Option String) (s : S3Setting) :
    (applyOpt o (fun v s => { s with SecretKey := v }) s).Bucket = s.Bucket := by
  cases o <;> rfl

theorem pass_session_Bucket (o : Option String) (s : S3Setting) :
    (applyOpt o (fun v s => { s with SessionToken := v }) s).Bucket = s.Bucket := by
  cases o <;> rfl

theorem pass_endpoint_Bucket (o : Option String) (s : S3Setting) :
    (applyOpt o (fun v s => { s with Endpoint := v }) s).Bucket = s.Bucket := by
  cases o <;> rfl

theorem pass_pstyle_Bucket (o : Option Bool) (s : S3Setting) :
    (applyOpt o (fun v s => { s with UsePathStyle := v }) s).Bucket = s.Bucket := by
  cases o <;> rfl

theorem pass_region_Access (o : Option String) (s : S3Setting) :
    (applyOpt o (fun v s => { s with Region := v }) s).AccessKey = s.AccessKey := by
  cases o <;> rfl

theorem pass_bucket_Access (o : Option String) (s : S3Setting) :
    (applyOpt o (fun v s => { s with Bucket := v }) s).AccessKey = s.AccessKey := by
  cases o <;> rfl

theorem pass_secret_Access (o : Option String) (s : S3Setting) :
    (applyOpt o (fun v s => { s with SecretKey := v }) s).AccessKey = s.AccessKey := by
  cases o <;> rfl

theorem pass_session_Access (o : Option String) (s : S3Setting) :
    (applyOpt o (fun v s => { s with SessionToken := v }) s).AccessKey = s.AccessKey := by
  cases o <;> rfl

theorem pass_endpoint_Access (o : Option String) (s : S3Setting) :
    (applyOpt o (fun v s => { s with Endpoint := v }) s).AccessKey = s.AccessKey := by
  cases o <;> rfl

theorem pass_pstyle_Access (o : Option Bool) (s : S3Setting) :
    (applyOpt o (fun v s => { s with UsePathStyle := v }) s).AccessKey = s.AccessKey := by
  cases o <;> rfl

theorem pass_fix_Access (s : S3Setting) : (fixBucket s).AccessKey = s.AccessKey := by
  unfold fixBucket
  split <;> rfl

theorem pass_region_Secret (o : Option String) (s : S3Setting) :
    (applyOpt o (fun v s => { s with Region := v }) s).SecretKey = s.SecretKey := by
  cases o <;> rfl

theorem pass_bucket_Secret (o : Option String) (s : S3Setting) :
    (applyOpt o (fun v s => { s with Bucket := v }) s).SecretKey = s.SecretKey := by
  cases o <;> rfl

theorem pass_access_Secret (o : Option String) (s : S3Setting) :
    (applyOpt o (fun v s => { s with AccessKey := v }) s).SecretKey = s.SecretKey := by
  cases o <;> rfl

theorem pass_session_Secret (o : Option String) (s : S3Setting) :
    (applyOpt o (fun v s => { s with SessionToken := v }) s).SecretKey = s.SecretKey := by
  cases o <;> rfl

theorem pass_endpoint_Secret (o : Option String) (s : S3Setting) :
    (applyOpt o (fun v s => { s with Endpoint := v }) s).SecretKey = s.SecretKey := by
  cases o <;> rfl

theorem pass_pstyle_Secret (o : Option Bool) (s : S3Setting) :
    (applyOpt o (fun v s => { s with UsePathStyle := v }) s).SecretKey = s.SecretKey := by
  cases o <;> rfl

theorem pass_fix_Secret (s : S3Setting) : (fixBucket s).SecretKey = s.SecretKey := by
  unfold fixBucket
  split <;> rfl

theorem connectSetting_Region (m : Settings) :
    (connectSetting m).Region = (strSetting m "region").getD "us-east-1" := by
  simp only [connectSetting, pass_fix_Region, pass_pstyle_Region, pass_endpoint_Region,
    pass_session_Region, pass_secret_Region, pass_access_Region, pass_bucket_Region]
  cases strSetting m "region" <;> rfl

theorem connectSetting_Bucket (m : Settings) :
    (connectSetting m).Bucket = (strSetting m "bucket").getD "default" := by
  simp only [connectSetting]
  rw [fixBucket_Bucket]
  simp only [pass_pstyle_Bucket, pass_endpoint_Bucket, pass_session_Bucket, pass_secret_Bucket,
    pass_access_Bucket, pass_region_Bucket]
  cases hb : strSetting m "bucket" with
  | none =>
    simp only [applyOpt_none, Option.getD_none]
    simp [pass_region_Bucket]
  | some v =>
    have hv := strSetting_some hb
    simp only [applyOpt_some, Option.getD_some]
    simp [hv]

theorem connectSetting_AccessKey (m : Settings) :
    (connectSetting m).AccessKey =
      overrideChain "" [strSetting m "access", strSetting m "accesskey", strSetting m "access_key"] := by
  simp only [connectSetting, pass_fix_Access, pass_pstyle_Access, pass_endpoint_Access,
    pass_session_Access, pass_secret_Access]
  cases h3 : strSetting m "access" <;> cases h4 : strSetting m "accesskey" <;>
    cases h5 : strSetting m "access_key" <;>
      simp only [applyOpt_none, applyOpt_some, overrideChain, List.foldl,
        pass_region_Access, pass_bucket_Access]

theorem connectSetting_SecretKey (m : Settings) :
    (connectSetting m).SecretKey =
      overrideChain "" [strSetting m "secret", strSetting m "secretkey", strSetting m "secret_key"] := by
  simp only [connectSetting, pass_fix_Secret, pass_pstyle_Secret, pass_endpoint_Secret,
    pass_session_Secret]
  cases h3 : strSetting m "secret" <;> cases h4 : strSetting m "secretkey" <;>
    cases h5 : strSetting m "secret_key" <;>
      simp only [applyOpt_none, applyOpt_some, overrideChain, List.foldl,
        pass_region_Secret, pass_bucket_Secret, pass_access_Secret]

/-- C2: for every instance settings map, Connect never fails — it is embedded
as a total function — and the returned connection's normalized settings have
region equal to the "region" setting when that is a non-empty string and
"us-east-1" otherwise, bucket equal to the "bucket" setting when that is a
non-empty string and "default" otherwise, and the bucket is never the empty
string after normalization. -/
theorem connect_setting_eq (m : Settings) : (Connect m).setting = connectSetting m := rfl

theorem connect_normalization (m : Settings) :
    (Connect m).setting.Region = (strSetting m "region").getD "us-east-1"
    ∧ (Connect m).setting.Bucket = (strSetting m "bucket").getD "default"
    ∧ (Connect m).setting.Bucket ≠ "" := by
  rw [connect_setting_eq]
  refine ⟨connectSetting_Region m, connectSetting_Bucket m, ?_⟩
  rw [connectSetting_Bucket m]
  cases hb : strSetting m "bucket" with
  | none => simp
  | some v => simpa using strSetting_some hb

/-- C2 witness: the spec's normalization example, bucket empty and region
"eu-west-1". -/
theorem connect_normalization_witness :
    (Connect (fun k => if k = "region" then SettingValue.str "eu-west-1"
        else if k = "bucket" then SettingValue.str "" else SettingValue.other)).setting.Region
        = "eu-west-1"
    ∧ (Connect (fun k => if k = "region" then SettingValue.str "eu-west-1"
        else if k = "bucket" then SettingValue.str "" else SettingValue.other)).setting.Bucket
        = "default"
    ∧ (Connect (fun k => if k = "region" then SettingValue.str "eu-west-1"
        else if k = "bucket" then SettingValue.str "" else SettingValue.other)).setting.Bucket
        ≠ "" := by
  have h := connect_normalization (fun k => if k = "region" then SettingValue.str "eu-west-1"
    else if k = "bucket" then SettingValue.str "" else SettingValue.other)
  refine ⟨h.1.trans (by decide), h.2.1.trans (by decide), h.2.2⟩

/-- C3: the normalized accessKey results from evaluating the settings
"access", "accesskey", "access_key" in that order with later present
non-empty keys overwriting earlier ones; in particular, when both "access"
and "access_key" hold non-empty strings, "access_key" wins, and analogously
for the secretKey chain "secret", "secretkey", "secret_key". -/
theorem connect_access_secret_chain (m : Settings) :
    (Connect m).setting.AccessKey =
      overrideChain "" [strSetting m "access", strSetting m "accesskey", strSetting m "access_key"]
    ∧ (Connect m).setting.SecretKey =
      overrideChain "" [strSetting m "secret", strSetting m "secretkey", strSetting m "secret_key"]
    ∧ (∀ a b, strSetting m "access" = some a → strSetting m "access_key" = some b →
        (Connect m).setting.AccessKey = b)
    ∧ (∀ a b, strSetting m "secret" = some a → strSetting m "secret_key" = some b →
        (Connect m).setting.SecretKey = b) := by
  rw [connect_setting_eq]
  refine ⟨connectSetting_AccessKey m, connectSetting_SecretKey m, ?_, ?_⟩
  · intro a b ha hb
    rw [connectSetting_AccessKey m, ha, hb]
    cases strSetting m "accesskey" <;> rfl
  · intro a b ha hb
    rw [connectSetting_SecretKey m, ha, hb]
    cases strSetting m "secretkey" <;> rfl

/-- C3 witness: with "access" = "A", "access_key" = "B", "secret" = "S",
"secret_key" = "T", the later keys win. -/
theorem connect_access_secret_chain_witness :
    (Connect (fun k => if k = "access" then SettingValue.str "A"
        else if k = "access_key" then SettingValue.str "B"
        else if k = "secret" then SettingValue.str "S"
        else if k = "secret_key" then SettingValue.str "T"
        else SettingValue.other)).setting.AccessKey = "B"
    ∧ (Connect (fun k => if k = "access" then SettingValue.str "A"
        else if k = "access_key" then SettingValue.str "B"
        else if k = "secret" then SettingValue.str "S"
        else if k = "secret_key" then SettingValue.str "T"
        else SettingValue.other)).setting.SecretKey = "T" := by
  have h := connect_access_secret_chain (fun k => if k = "access" then SettingValue.str "A"
    else if k = "access_key" then SettingValue.str "B"
    else if k = "secret" then SettingValue.str "S"
    else if k = "secret_key" then SettingValue.str "T"
    else SettingValue.other)
  exact ⟨h.2.2.1 "A" "B" (by decide) (by decide), h.2.2.2 "S" "T" (by decide) (by decide)⟩

/-! ### Object key resolver and range requests -/

/-- C4: objectPath is a pure deterministic function of (prefix, key, type):
it equals join(prefix, key ++ "." ++ type) when the type is non-empty and
join(prefix, key) otherwise, and identical (prefix, key, type) triples always
yield identical object paths (the file size in particular plays no role). -/
theorem objectPath_deterministic (f g : GoFile) :
    (objectPath f =
      if f.ftype ≠ "" then pathJoin2 f.pfx (f.key ++ "." ++ f.ftype)
      else pathJoin2 f.pfx f.key)
    ∧ (f.pfx = g.pfx → f.key = g.key → f.ftype = g.ftype → objectPath f = objectPath g) := by
  constructor
  · unfold objectPath
    by_cases h : f.ftype = "" <;> simp [h]
  · intro h1 h2 h3
    unfold objectPath
    rw [h1, h2, h3]

/-- C4 witness: two files agreeing on (prefix, key, type) but not on size map
to the same object path, and the path has the documented join shape. -/
theorem objectPath_deterministic_witness :
    objectPath { pfx := "p", key := "k", ftype := "txt", size := 3 }
      = objectPath { pfx := "p", key := "k", ftype := "txt", size := 55 }
    ∧ objectPath { pfx := "p", key := "k", ftype := "txt", size := 3 } = "p/k.txt"
    ∧ objectPath { pfx := "", key := "k", ftype := "", size := 0 } = "k" := by
  refine ⟨(objectPath_deterministic
    { pfx := "p", key := "k", ftype := "txt", size := 3 }
    { pfx := "p", key := "k", ftype := "txt", size := 55 }).2 rfl rfl rfl, by decide, by decide⟩

/-- C9: when the connection is ready, Fetch issues exactly one GetObject call
whose range header is a deterministic function of the (start, end) pair:
"bytes=start-end" when end is set (positive), "bytes=start-" when only start
is set, and no range header when neither is set — in particular start = 0
with end unset sends no range. -/
theorem fetch_range_request (c : Conn) (file : GoFile) (opt : FetchOption) (env : FetchEnv)
    (hc : c.client = some ()) :
    (Fetch c file opt env).calls =
      [RemoteCall.getObject
        { bucket := c.setting.Bucket, key := objectPath file, range := rangeOf opt }]
    ∧ (0 < opt.stop →
        rangeOf opt = some ("bytes=" ++ toString opt.start ++ "-" ++ toString opt.stop))
    ∧ (opt.stop ≤ 0 → 0 < opt.start →
        rangeOf opt = some ("bytes=" ++ toString opt.start ++ "-"))
    ∧ (opt.start ≤ 0 → opt.stop ≤ 0 → rangeOf opt = none) := by
  refine ⟨?_, ?_, ?_, ?_⟩
  · obtain ⟨st, cl⟩ := c
    cases cl with
    | none => exact absurd hc (by simp)
    | some u =>
      obtain ⟨g, ct, cp, cpd, sk, nm⟩ := env
      cases g <;> cases ct <;> cases cp <;> cases sk <;> simp [Fetch]
  · intro hs
    rw [rangeOf, if_pos (Or.inr hs), if_pos hs]
  · intro hse hst
    rw [rangeOf, if_pos (Or.inl hst), if_neg (by omega)]
  · intro h1 h2
    rw [rangeOf, if_neg (by omega)]

/-- C9 witness: concrete range shapes, including the start = 0 cases. -/
theorem fetch_range_request_witness :
    (Fetch { setting := { Region := "r", Bucket := "b" }, client := some () }
        { pfx := "p", key := "k", ftype := "t", size := 1 } { start := 0, stop := 5 }
        { getErr := false, createTempOk := true, copyOk := true, copied := 5,
          seekOk := true, tmpName := "tmp1" }).calls =
      [RemoteCall.getObject { bucket := "b", key := "p/k.t", range := some "bytes=0-5" }]
    ∧ rangeOf { start := 0, stop := 5 } = some "bytes=0-5"
    ∧ rangeOf { start := 7, stop := 0 } = some "bytes=7-"
    ∧ rangeOf { start := 0, stop := 0 } = none := by
  have h := fetch_range_request { setting := { Region := "r", Bucket := "b" }, client := some () }
    { pfx := "p", key := "k", ftype := "t", size := 1 } { start := 0, stop := 5 }
    { getErr := false, createTempOk := true, copyOk := true, copied := 5,
      seekOk := true, tmpName := "tmp1" } rfl
  have h2 := fetch_range_request { setting := { Region := "r", Bucket := "b" }, client := some () }
    { pfx := "p", key := "k", ftype := "t", size := 1 } { start := 7, stop := 0 }
    { getErr := false, createTempOk := true, copyOk := true, copied := 5,
      seekOk := true, tmpName := "tmp1" } rfl
  have h3 := fetch_range_request { setting := { Region := "r", Bucket := "b" }, client := some () }
    { pfx := "p", key := "k", ftype := "t", size := 1 } { start := 0, stop := 0 }
    { getErr := false, createTempOk := true, copyOk := true, copied := 5,
      seekOk := true, tmpName := "tmp1" } rfl
  refine ⟨?_, ?_, h2.2.2.1 (by decide) (by decide), h3.2.2.2 (by decide) (by decide)⟩
  · rw [h.1]
    have hr := h.2.1 (by decide)
    rw [hr]
    decide
  · exact (h.2.1 (by decide)).trans (by decide)

/-! ### Canonical tagging -/

theorem charListLe_total : ∀ as bs : List Char, charListLe as bs = true ∨ charListLe bs as = true
  | [], _ => Or.inl rfl
  | _ :: _, [] => Or.inr rfl
  | a :: as, b :: bs => by
    by_cases hab : a = b
    · subst hab
      simp only [charListLe, if_pos rfl]
      exact charListLe_total as bs
    · rcases lt_or_gt_of_ne hab with h | h
      · exact Or.inl (by simp [charListLe, hab, h])
      · refine Or.inr (by simp [charListLe, Ne.symm hab, h])

theorem charListLe_trans :
    ∀ as bs cs : List Char, charListLe as bs = true → charListLe bs cs = true →
      charListLe as cs = true
  | [], _, _, _, _ => rfl
  | a :: as, [], cs, h1, _ => by simp [charListLe] at h1
  | a :: as, b :: bs, [], _, h2 => by simp [charListLe] at h2
  | a :: as, b :: bs, c :: cs, h1, h2 => by
    by_cases hab : a = b <;> by_cases hbc : b = c
    · subst hab; subst hbc
      simp only [charListLe, if_pos rfl] at h1 h2 ⊢
      exact charListLe_trans as bs cs h1 h2
    · subst hab
      simpa [charListLe, hbc] using h2
    · subst hbc
      simpa [charListLe, hab] using h1
    · simp only [charListLe, if_neg hab, decide_eq_true_eq] at h1
      simp only [charListLe, if_neg hbc, decide_eq_true_eq] at h2
      have hac : a < c := lt_trans h1 h2
      simp [charListLe, ne_of_lt hac, hac]

theorem charListLe_antisymm :
    ∀ as bs : List Char, charListLe as bs = true → charListLe bs as = true → as = bs
  | [], [], _, _ => rfl
  | [], _ :: _, _, h2 => by simp [charListLe] at h2
  | _ :: _, [], h1, _ => by simp [charListLe] at h1
  | a :: as, b :: bs, h1, h2 => by
    by_cases hab : a = b
    · subst hab
      simp only [charListLe, if_pos rfl] at h1 h2
      rw [charListLe_antisymm as bs h1 h2]
    · simp only [charListLe, if_neg hab, decide_eq_true_eq] at h1
      simp only [charListLe, if_neg (Ne.symm hab), decide_eq_true_eq] at h2
      exact absurd h2 (lt_asymm h1)

instance : IsTotal String (fun a b => strLe a b = true) :=
  ⟨fun a b => charListLe_total a.data b.data⟩

instance : IsTrans String (fun a b => strLe a b = true) :=
  ⟨fun a b c => charListLe_trans a.data b.data c.data⟩

instance : IsAntisymm String (fun a b => strLe a b = true) :=
  ⟨fun a b h1 h2 => String.toList_inj.mp (charListLe_antisymm a.data b.data h1 h2)⟩

theorem mapGet_perm {t1 t2 : List (String × String)} (hp : t1.Perm t2)
    (nd : (t1.map Prod.fst).Nodup) (k : String) : mapGet t1 k = mapGet t2 k := by
  induction hp with
  | nil => rfl
  | cons x hp ih =>
    obtain ⟨kx, vx⟩ := x
    have nd' := (List.nodup_cons.mp nd).2
    by_cases hk : kx = k <;> simp [mapGet, hk, ih nd']
  | swap x y l =>
    obtain ⟨kx, vx⟩ := x
    obtain ⟨ky, vy⟩ := y
    have hne : ky ≠ kx := by
      intro hcontra
      exact (List.nodup_cons.mp nd).1 (hcontra ▸ List.mem_cons_self _ _)
    by_cases h1 : ky = k <;> by_cases h2 : kx = k <;> simp [mapGet, h1, h2]
    exact absurd (h1.trans h2.symm) hne
  | trans hp1 hp2 ih1 ih2 =>
    have nd2 := ((hp1.map Prod.fst).nodup_iff).mp nd
    rw [ih1 nd, ih2 nd2]

/-- C5: the tagging string is canonical and insertion-order-independent — for
any two association-list views of the same tag mapping (permutations of one
another, map keys being distinct), Upload computes the identical tagging
string: keys are sorted, each tag is percent-encoded as key=value, tags are
joined with "&". -/
theorem tagging_canonical (t1 t2 : List (String × String)) (hp : t1.Perm t2)
    (nd : (t1.map Prod.fst).Nodup) : taggingOf t1 = taggingOf t2 := by
  unfold taggingOf
  have hlen : t1.length = t2.length := hp.length_eq
  by_cases h0 : 0 < t1.length
  · rw [if_pos h0, if_pos (hlen ▸ h0)]
    dsimp only
    have hkeys : (t1.map Prod.fst).Perm (t2.map Prod.fst) := hp.map _
    have hsort :
        List.insertionSort (fun a b => strLe a b = true) (t1.map Prod.fst) =
          List.insertionSort (fun a b => strLe a b = true) (t2.map Prod.fst) :=
      List.eq_of_perm_of_sorted
        ((List.perm_insertionSort _ _).trans (hkeys.trans (List.perm_insertionSort _ _).symm))
        (List.sorted_insertionSort _ _) (List.sorted_insertionSort _ _)
    rw [hsort]
    have hfun :
        (fun k => queryEscape k ++ "=" ++ queryEscape (mapGet t1 k)) =
          (fun k => queryEscape k ++ "=" ++ queryEscape (mapGet t2 k)) :=
      funext fun k => by rw [mapGet_perm hp nd k]
    rw [hfun]
  · rw [if_neg h0, if_neg (by omega)]

/-- C5 witness: the spec's example — tag maps in the two iteration orders
encode to the same canonical string "a=1&b=2". -/
theorem tagging_canonical_witness :
    taggingOf [("b", "2"), ("a", "1")] = taggingOf [("a", "1"), ("b", "2")]
    ∧ taggingOf [("a", "1"), ("b", "2")] = some "a=1&b=2" := by
  refine ⟨tagging_canonical [("b", "2"), ("a", "1")] [("a", "1"), ("b", "2")]
    (by decide) (by decide), by decide⟩

/-! ### Upload validation, Fetch cleanup, Download short-circuit -/

/-- C6: on a ready connection, Upload fails with a ValidationError-classified
error — and issues no remote call — when the local path does not exist, when
it is a directory, or when (the path naming a regular file) options.key is
empty. -/
theorem upload_validation (c : Conn) (original : String) (opt : UploadOption) (env : UploadEnv)
    (hc : c.client = some ()) :
    (env.stat = StatResult.statErr true →
      (Upload c original opt env).res = Except.error (Err.statFail true)
      ∧ Err.isValidationError (Err.statFail true) = true
      ∧ (Upload c original opt env).calls = [])
    ∧ (∀ sz, env.stat = StatResult.info true sz →
      (Upload c original opt env).res = Except.error Err.dirNotSupported
      ∧ Err.isValidationError Err.dirNotSupported = true
      ∧ (Upload c original opt env).calls = [])
    ∧ (∀ sz, env.stat = StatResult.info false sz → opt.key = "" →
      (Upload c original opt env).res = Except.error Err.missingKey
      ∧ Err.isValidationError Err.missingKey = true
      ∧ (Upload c original opt env).calls = []) := by
  refine ⟨?_, ?_, ?_⟩
  · intro h
    refine ⟨?_, rfl, ?_⟩ <;> simp [Upload, hc, h]
  · intro sz h
    refine ⟨?_, rfl, ?_⟩ <;> simp [Upload, hc, h]
  · intro sz h hk
    refine ⟨?_, rfl, ?_⟩ <;> simp [Upload, hc, h, hk]

/-- C6 witness: a directory source on a ready connection is rejected with a
validation error and no remote call. -/
theorem upload_validation_witness :
    (Upload { setting := { Region := "r", Bucket := "b" }, client := some () } "somedir"
        { key := "k", pfx := "", mimetype := "", expires := 0, metadata := [], tags := [] }
        { stat := StatResult.info true 0, openOk := true, putErr := false }).res
      = Except.error Err.dirNotSupported
    ∧ (Upload { setting := { Region := "r", Bucket := "b" }, client := some () } "somedir"
        { key := "k", pfx := "", mimetype := "", expires := 0, metadata := [], tags := [] }
        { stat := StatResult.info true 0, openOk := true, putErr := false }).calls = [] := by
  have h := (upload_validation { setting := { Region := "r", Bucket := "b" }, client := some () }
    "somedir" { key := "k", pfx := "", mimetype := "", expires := 0, metadata := [], tags := [] }
    { stat := StatResult.info true 0, openOk := true, putErr := false } rfl).2.1 0 rfl
  exact ⟨h.1, h.2.2⟩

/-- C7: for every Fetch call, if any step after temp-file creation fails (the
copy from the remote body or the seek back to offset 0), the temporary file
is closed and deleted before the error is returned — no temp file survives a
failed Fetch — and on success the returned stream is positioned at offset 0. -/
theorem fetch_cleanup (c : Conn) (file : GoFile) (opt : FetchOption) (env : FetchEnv) :
    (∀ e, (Fetch c file opt env).res = Except.error e →
      (Fetch c file opt env).tempCreated = true → (Fetch c file opt env).tempRemoved = true)
    ∧ (∀ s, (Fetch c file opt env).res = Except.ok s → s.pos = 0) := by
  obtain ⟨st, cl⟩ := c
  obtain ⟨g, ct, cp, cpd, sk, nm⟩ := env
  cases cl <;> cases g <;> cases ct <;> cases cp <;> cases sk <;>
    simp [Fetch, streamSeek]

/-- C7 witness: a copy failure after temp-file creation ends with the temp
file removed, and a successful Fetch returns a stream at offset 0. -/
theorem fetch_cleanup_witness :
    (Fetch { setting := { Region := "r", Bucket := "b" }, client := some () }
        { pfx := "p", key := "k", ftype := "t", size := 9 } { start := 0, stop := 0 }
        { getErr := false, createTempOk := true, copyOk := false, copied := 0,
          seekOk := true, tmpName := "tmpA" }).tempRemoved = true
    ∧ ∀ s, (Fetch { setting := { Region := "r", Bucket := "b" }, client := some () }
        { pfx := "p", key := "k", ftype := "t", size := 9 } { start := 0, stop := 0 }
        { getErr := false, createTempOk := true, copyOk := true, copied := 9,
          seekOk := true, tmpName := "tmpA" }).res = Except.ok s → s.pos = 0 := by
  constructor
  · exact (fetch_cleanup { setting := { Region := "r", Bucket := "b" }, client := some () }
      { pfx := "p", key := "k", ftype := "t", size := 9 } { start := 0, stop := 0 }
      { getErr := false, createTempOk := true, copyOk := false, copied := 0,
        seekOk := true, tmpName := "tmpA" }).1 Err.localFail (by decide) (by decide)
  · exact (fetch_cleanup { setting := { Region := "r", Bucket := "b" }, client := some () }
      { pfx := "p", key := "k", ftype := "t", size := 9 } { start := 0, stop := 0 }
      { getErr := false, createTempOk := true, copyOk := true, copied := 9,
        seekOk := true, tmpName := "tmpA" }).2

/-- C8: on a ready connection, Download fails with a ValidationError when the
target path is empty, and when the target already exists as a non-directory
file it returns that path unchanged with no remote call and no local write. -/
theorem download_shortcircuit (c : Conn) (file : GoFile) (opt : DownloadOption)
    (env : DownloadEnv) (hc : c.client = some ()) :
    (opt.target = "" →
      (Download c file opt env).res = Except.error Err.invalidTarget
      ∧ Err.isValidationError Err.invalidTarget = true
      ∧ (Download c file opt env).calls = [])
    ∧ (∀ sz, env.targetStat = StatResult.info false sz → opt.target ≠ "" →
      Download c file opt env =
        { res := Except.ok opt.target, conn := c, calls := [], wroteLocal := false }) := by
  refine ⟨?_, ?_⟩
  · intro ht
    refine ⟨?_, rfl, ?_⟩ <;> simp [Download, hc, ht]
  · intro sz hstat hne
    simp [Download, hc, hstat, hne]

/-- C8 witness: an existing regular-file target short-circuits a ready
Download, and an empty target is rejected. -/
theorem download_shortcircuit_witness :
    Download { setting := { Region := "r", Bucket := "b" }, client := some () }
        { pfx := "p", key := "k", ftype := "t", size := 9 } { target := "out/file.bin" }
        { targetStat := StatResult.info false 9, mkdirOk := true, createOk := true, dlErr := false }
      = { res := Except.ok "out/file.bin",
          conn := { setting := { Region := "r", Bucket := "b" }, client := some () },
          calls := [], wroteLocal := false }
    ∧ (Download { setting := { Region := "r", Bucket := "b" }, client := some () }
        { pfx := "p", key := "k", ftype := "t", size := 9 } { target := "" }
        { targetStat := StatResult.statErr true, mkdirOk := true, createOk := true,
          dlErr := false }).res = Except.error Err.invalidTarget := by
  have h := download_shortcircuit { setting := { Region := "r", Bucket := "b" }, client := some () }
    { pfx := "p", key := "k", ftype := "t", size := 9 } { target := "out/file.bin" }
    { targetStat := StatResult.info false 9, mkdirOk := true, createOk := true, dlErr := false }
    rfl
  have h2 := download_shortcircuit { setting := { Region := "r", Bucket := "b" }, client := some () }
    { pfx := "p", key := "k", ftype := "t", size := 9 } { target := "" }
    { targetStat := StatResult.statErr true, mkdirOk := true, createOk := true, dlErr := false }
    rfl
  exact ⟨h.2 9 rfl (by decide), (h2.1 rfl).1⟩

/-! ### Frame conditions and the readiness gate -/

/-- C10: no data operation (Upload, Fetch, Download, Remove, Browse) nor
Health mutates the connection — each leaves every field (client handle and
normalized settings) unchanged; the client is installed by Open (which
touches no other field) and reset only by Close, which always succeeds and is
idempotent, hence safe to call repeatedly. -/
theorem connection_frame (c : Conn) (original : String) (uopt : UploadOption)
    (uenv : UploadEnv) (file : GoFile) (fopt : FetchOption) (fenv : FetchEnv)
    (dopt : DownloadOption) (denv : DownloadEnv) (renv : RemoveEnv) (bopt : BrowseOption)
    (benv : BrowseEnv) (oenv : OpenEnv) :
    (Upload c original uopt uenv).conn = c
    ∧ (Fetch c file fopt fenv).conn = c
    ∧ (Download c file dopt denv).conn = c
    ∧ (Remove c file renv).conn = c
    ∧ (Browse c file bopt benv).conn = c
    ∧ (Health c).2 = c
    ∧ (Close c).res = Except.ok ()
    ∧ (Close c).conn = { c with client := none }
    ∧ Close ((Close c).conn) = Close c
    ∧ (Open c oenv).conn.setting = c.setting
    ∧ (oenv.cfgOk = true → (Open c oenv).conn.client = some ())
    ∧ (oenv.cfgOk = false → (Open c oenv).conn = c) := by
  refine ⟨?_, ?_, ?_, ?_, ?_, rfl, rfl, rfl, rfl, ?_, ?_, ?_⟩
  · unfold Upload
    repeat' split
    all_goals rfl
  · unfold Fetch
    repeat' split
    all_goals rfl
  · unfold Download
    repeat' split
    all_goals rfl
  · unfold Remove
    repeat' split
    all_goals rfl
  · unfold Browse
    repeat' split
    all_goals rfl
  · unfold Open
    repeat' split
    all_goals rfl
  · intro h
    unfold Open
    rw [h, if_neg (not_not_intro rfl)]
    repeat' split
    all_goals rfl
  · intro h
    unfold Open
    rw [h]
    rfl

/-- C10 witness: concrete run showing the frame facts at one connection. -/
theorem connection_frame_witness :
    (Upload { setting := { Region := "r", Bucket := "b" }, client := some () } "a.txt"
        { key := "k", pfx := "", mimetype := "", expires := 0, metadata := [], tags := [] }
        { stat := StatResult.info false 3, openOk := true, putErr := false }).conn
      = { setting := { Region := "r", Bucket := "b" }, client := some () }
    ∧ Close ((Close { setting := { Region := "r", Bucket := "b" }, client := some () }).conn)
      = Close { setting := { Region := "r", Bucket := "b" }, client := some () }
    ∧ ((Open { setting := { Region := "r", Bucket := "b" }, client := none }
          { cfgOk := false, headOk := true, createOk := true }).conn
      = { setting := { Region := "r", Bucket := "b" }, client := none }) := by
  have h := connection_frame { setting := { Region := "r", Bucket := "b" }, client := some () }
    "a.txt" { key := "k", pfx := "", mimetype := "", expires := 0, metadata := [], tags := [] }
    { stat := StatResult.info false 3, openOk := true, putErr := false }
    { pfx := "p", key := "k", ftype := "t", size := 9 } { start := 0, stop := 0 }
    { getErr := false, createTempOk := true, copyOk := true, copied := 9, seekOk := true,
      tmpName := "tmpA" }
    { target := "t" }
    { targetStat := StatResult.statErr true, mkdirOk := true, createOk := true, dlErr := false }
    { delErr := false } { expires := 0 } { presignErr := false, url := "u" }
    { cfgOk := false, headOk := true, createOk := true }
  have h2 := connection_frame { setting := { Region := "r", Bucket := "b" }, client := none }
    "a.txt" { key := "k", pfx := "", mimetype := "", expires := 0, metadata := [], tags := [] }
    { stat := StatResult.info false 3, openOk := true, putErr := false }
    { pfx := "p", key := "k", ftype := "t", size := 9 } { start := 0, stop := 0 }
    { getErr := false, createTempOk := true, copyOk := true, copied := 9, seekOk := true,
      tmpName := "tmpA" }
    { target := "t" }
    { targetStat := StatResult.statErr true, mkdirOk := true, createOk := true, dlErr := false }
    { delErr := false } { expires := 0 } { presignErr := false, url := "u" }
    { cfgOk := false, headOk := true, createOk := true }
  exact ⟨h.1, h.2.2.2.2.2.2.2.2.1, h2.2.2.2.2.2.2.2.2.2.2.2 rfl⟩

/-- C1 counterexample: the claim "every data operation invoked before a
successful Open fails with NotReadyError" is false on the code. When config
loading succeeds but both the bucket probe and the bucket creation fail, Open
returns an error — so no successful Open has occurred — yet the client has
already been installed, and a subsequent Upload proceeds past the readiness
check and succeeds. -/
theorem ready_gate_counterexample :
    (Open (Connect (fun _ => SettingValue.other))
        { cfgOk := true, headOk := false, createOk := false }).res = Except.error Err.remote
    ∧ (Upload (Open (Connect (fun _ => SettingValue.other))
          { cfgOk := true, headOk := false, createOk := false }).conn "a.txt"
        { key := "k", pfx := "", mimetype := "", expires := 0, metadata := [], tags := [] }
        { stat := StatResult.info false 3, openOk := true, putErr := false }).res
      = Except.ok { pfx := "", key := "k", ftype := "txt", size := 3 } := by
  exact ⟨by decide, by decide⟩

/-- C1 (amended): every data operation (Upload, Fetch, Download, Remove,
Browse) invoked while no live client is installed — before any Open call has
installed one, or after Close — fails with NotReadyError and performs no
remote call; conversely the operations proceed past the readiness check
exactly when a live client is present. (A failed Open can still install a
live client, when the bucket probe and creation fail after client
construction, so "no live client" is not the same as "no successful Open".) -/
theorem ready_gate (c : Conn) (original : String) (uopt : UploadOption) (uenv : UploadEnv)
    (file : GoFile) (fopt : FetchOption) (fenv : FetchEnv) (dopt : DownloadOption)
    (denv : DownloadEnv) (renv : RemoveEnv) (bopt : BrowseOption) (benv : BrowseEnv) :
    (c.client = none →
      Upload c original uopt uenv = { res := Except.error Err.notReady, conn := c, calls := [] }
      ∧ Fetch c file fopt fenv =
          { res := Except.error Err.notReady, conn := c, calls := [],
            tempCreated := false, tempRemoved := false }
      ∧ Download c file dopt denv =
          { res := Except.error Err.notReady, conn := c, calls := [], wroteLocal := false }
      ∧ Remove c file renv = { res := Except.error Err.notReady, conn := c, calls := [] }
      ∧ Browse c file bopt benv = { res := Except.error Err.notReady, conn := c, calls := [] })
    ∧ (c.client ≠ none →
      (Upload c original uopt uenv).res ≠ Except.error Err.notReady
      ∧ (Fetch c file fopt fenv).res ≠ Except.error Err.notReady
      ∧ (Download c file dopt denv).res ≠ Except.error Err.notReady
      ∧ (Remove c file renv).res ≠ Except.error Err.notReady
      ∧ (Browse c file bopt benv).res ≠ Except.error Err.notReady) := by
  obtain ⟨st, cl⟩ := c
  constructor
  · intro hc
    subst hc
    refine ⟨?_, ?_, ?_, ?_, ?_⟩ <;> rfl
  · intro hc
    cases cl with
    | none => exact absurd rfl hc
    | some u =>
      refine ⟨?_, ?_, ?_, ?_, ?_⟩
      · unfold Upload
        repeat' split
        all_goals simp_all
      · unfold Fetch
        repeat' split
        all_goals simp_all
      · unfold Download
        repeat' split
        all_goals simp_all
      · unfold Remove
        repeat' split
        all_goals simp_all
      · unfold Browse
        repeat' split
        all_goals simp_all

/-- C1 (amended) witness: on a closed connection every operation reports
NotReadyError with no remote call, and on a live connection Remove's result
is never NotReadyError. -/
theorem ready_gate_witness :
    Remove { setting := { Region := "r", Bucket := "b" }, client := none }
        { pfx := "p", key := "k", ftype := "t", size := 9 } { delErr := false }
      = { res := Except.error Err.notReady,
          conn := { setting := { Region := "r", Bucket := "b" }, client := none }, calls := [] }
    ∧ (Remove { setting := { Region := "r", Bucket := "b" }, client := some () }
        { pfx := "p", key := "k", ftype := "t", size := 9 } { delErr := false }).res
      ≠ Except.error Err.notReady := by
  have h := ready_gate { setting := { Region := "r", Bucket := "b" }, client := none }
    "a.txt" { key := "k", pfx := "", mimetype := "", expires := 0, metadata := [], tags := [] }
    { stat := StatResult.info false 3, openOk := true, putErr := false }
    { pfx := "p", key := "k", ftype := "t", size := 9 } { start := 0, stop := 0 }
    { getErr := false, createTempOk := true, copyOk := true, copied := 9, seekOk := true,
      tmpName := "tmpA" }
    { target := "t" }
    { targetStat := StatResult.statErr true, mkdirOk := true, createOk := true, dlErr := false }
    { delErr := false } { expires := 0 } { presignErr := false, url := "u" }
  have h2 := ready_gate { setting := { Region := "r", Bucket := "b" }, client := some () }
    "a.txt" { key := "k", pfx := "", mimetype := "", expires := 0, metadata := [], tags := [] }
    { stat := StatResult.info false 3, openOk := true, putErr := false }
    { pfx := "p", key := "k", ftype := "t", size := 9 } { start := 0, stop := 0 }
    { getErr := false, createTempOk := true, copyOk := true, copied := 9, seekOk := true,
      tmpName := "tmpA" }
    { target := "t" }
    { targetStat := StatResult.statErr true, mkdirOk := true, createOk := true, dlErr := false }
    { delErr := false } { expires := 0 } { presignErr := false, url := "u" }
  exact ⟨(h.1 rfl).2.2.2.1, (h2.2 (by simp)).2.2.2.1⟩

end StorageS3
